import Mathlib

/-!
Verification development for the YouTube live-chat bot dispatch engine.

The definitions below are a shallow embedding of the Python sources:
  - app/commands/command.py   (BaseCommand.can_handle, CommandContext)
  - app/commands/parser.py    (CommandParser.can_handle / execute)
  - app/skills/registry.py    (SkillRegistry.dispatch)
  - app/skills/community.py   (CommunityEngagementSkill.handle)
  - app/youtube_integration/youtube_api.py  (fetch_chat_messages error path)
  - app/youtube_integration/chat_bridge.py  (YouTubeChatBridge.process_message,
    _normalize_text, _append_bot_signature, should_respond_to_message,
    YouTubeAPIChatSource.sync_items)

Python strings are modelled as Lean `String` (a list of unicode code points,
matching Python length/indexing semantics for code points).  `str.lower` is
modelled character-wise with `Char.toLower` (ASCII case folding; every string
appearing in the claims is ASCII).  Wall-clock times (`time.time()` floats)
are modelled as rationals.  External collaborators (the YouTube posting API,
the LLM agent, random.choice, the skill registry seen from the bridge) are
modelled as explicit oracle parameters, since their results are inputs to the
control flow under verification.
-/

namespace StreamBot

/-- Whitespace predicate used by Python `str.split` / `str.strip` (ASCII
whitespace; Python also strips some further unicode spaces, which never occur
in this code base). -/
def pyIsSpace (c : Char) : Bool :=
  c == ' ' || c == '\t' || c == '\n' || c == '\x0b' || c == '\x0c' || c == '\r'

/-- Character-wise lowercasing, the model of Python `str.lower`. -/
def lowerL (l : List Char) : List Char :=
  l.map Char.toLower

/-- Model of Python `str.lstrip()` on the character list. -/
def lstripL (l : List Char) : List Char :=
  l.dropWhile pyIsSpace

/-- Model of Python `str.rstrip()` on the character list. -/
def rstripL (l : List Char) : List Char :=
  (l.reverse.dropWhile pyIsSpace).reverse

/-- Model of Python `str.strip()` on the character list. -/
def stripL (l : List Char) : List Char :=
  lstripL (rstripL l)

/-- Whitespace-run splitting, the model of Python `str.split()` with no
arguments: maximal runs of non-whitespace characters, no empty tokens. -/
def splitWs : List Char → List Char → List (List Char)
  | [], acc => if acc.isEmpty then [] else [acc.reverse]
  | c :: cs, acc =>
    if pyIsSpace c then
      if acc.isEmpty then splitWs cs [] else acc.reverse :: splitWs cs []
    else splitWs cs (c :: acc)

/-- Model of Python slicing `s[:n]` for a possibly negative bound `n`
(`s[:n]` with `n < 0` drops the last `|n|` characters; Nat subtraction
saturates to the empty string exactly as Python does). -/
def pySliceTo (l : List Char) (n : ℤ) : List Char :=
  if 0 ≤ n then l.take n.toNat else l.take (l.length - n.natAbs)

/-- The `_normalize_text` helper of `YouTubeChatBridge.__init__`
(chat_bridge.py lines 153-158): `''.join(s.split()).lower().replace('*', '')`.
Removing every asterisk is `replace('*', '')`; the `except` arm of the source
is unreachable for string input and is not modelled. -/
def normalizeText (s : String) : String :=
  ⟨((splitWs s.data []).flatten.map Char.toLower).filter (fun c => c != '*')⟩

/-- Model of a `collections.deque(maxlen := n)` append: push on the right,
evict from the left once the length exceeds the bound. -/
def dequeAppend (maxlen : ℕ) (q : List String) (x : String) : List String :=
  let q2 := q ++ [x]
  if maxlen < q2.length then q2.drop (q2.length - maxlen) else q2

/-- Python truthiness of an `Optional[str]`: `None` and `""` are falsy. -/
def truthy : Option String → Bool
  | none => false
  | some s => s != ""

/- ========================= Command Engine ========================= -/

/-- Outcome of one `await command.execute(context)` call: the handler either
raises an exception carrying `str(e)` or returns an `Optional[str]`. -/
inductive HandlerOutcome where
  | raises (errText : String)
  | returns (r : Option String)
deriving DecidableEq

/-- A registered command: `BaseCommand.name`, `BaseCommand.aliases`, and the
outcome its `execute` produces for the dispatch under analysis. -/
structure PyCommand where
  name : String
  aliases : List String
  handler : HandlerOutcome
deriving DecidableEq

/-- Model of `BaseCommand.can_handle` (command.py lines 92-112): lowercase and strip
the message, then test `startswith("!" + name)` and each alias likewise. -/
def canHandle (cmd : PyCommand) (message : String) : Bool :=
  let msgLower := stripL (lowerL message.data)
  List.isPrefixOf ("!" ++ cmd.name).data msgLower ||
    cmd.aliases.any (fun a => List.isPrefixOf ("!" ++ a).data msgLower)

/-- Model of `CommandParser.can_handle` (parser.py lines 65-83): the raw message must
start with `!` and some registered command's `can_handle` must accept it. -/
def parserCanHandle (cmds : List PyCommand) (message : String) : Bool :=
  List.isPrefixOf ['!'] message.data && cmds.any (fun c => canHandle c message)

/-- Model of `CommandParser.execute` (parser.py lines 85-114): scan the registration
list for the first `can_handle` match, run its handler, catch any exception
and turn it into `"Error executing command: " + str(e)[:50]`; with no match
(or a message not starting with `!`) return `None`. -/
def parserExecute (cmds : List PyCommand) (message : String) : Option String :=
  if List.isPrefixOf ['!'] message.data then
    match cmds.find? (fun c => canHandle c message) with
    | some cmd =>
      match cmd.handler with
      | HandlerOutcome.raises e => some ("Error executing command: " ++ ⟨e.data.take 50⟩)
      | HandlerOutcome.returns r => r
    | none => none
  else none

/- ========================= Skill Registry ========================= -/

/-- A registered skill as `SkillRegistry.dispatch` sees it: its
`should_handle(author, message)` predicate and its `handle` coroutine, each
of which may raise (modelled by `Except`, the error carrying no data the
dispatcher looks at). -/
structure PySkill where
  shouldHandle : String → String → Except Unit Bool
  handle : String → String → Except Unit (Option String)

/-- Model of `SkillRegistry.dispatch` (registry.py lines 15-23): iterate in
registration order; a raising `should_handle` or `handle` hits the
`except Exception: continue` arm and the loop moves to the next skill; a
non-raising `handle` result (even `None`) is returned as is. -/
def skillsDispatch : List PySkill → String → String → Option String
  | [], _, _ => none
  | s :: rest, author, message =>
    match s.shouldHandle author message with
    | Except.error _ => skillsDispatch rest author message
    | Except.ok false => skillsDispatch rest author message
    | Except.ok true =>
      match s.handle author message with
      | Except.error _ => skillsDispatch rest author message
      | Except.ok r => r

/- ==================== CommunityEngagementSkill ==================== -/

/-- Mutable state of `CommunityEngagementSkill`: `self._last_sent`
(initialised to `0`). -/
structure CommunityState where
  lastSent : ℚ
deriving DecidableEq

/-- The fixed comment pool of `CommunityEngagementSkill.handle`
(community.py lines 38-46), with the streamer name interpolated. -/
def communityComments (streamer : String) : List String :=
  [ "Love the energy in chat! You all make " ++ streamer ++ "\x27s stream awesome.",
    "Chat is vibing—keep the good times rolling!",
    "Great to see everyone enjoying the game together.",
    "This community is the best—thanks for hanging out!",
    "So many positive vibes here!",
    "Favorite map discussions always get the chat going!",
    "Glad to see everyone having fun!" ]

/-- Model of `CommunityEngagementSkill.handle` (community.py lines 22-48).
`minGapCfg` is `self.config.get("min_gap_seconds")` (`None` falls back to
`120`); `now` is `time.time()`; `viewerCount` is the value the
`context["youtube_api"]`/`get_stream_stats` chain yields (`none` when the
context has no API object, the stats call fails, or the stats lack the
count); `choice` drives `random.choice`.  Returns the reply and the updated
state: `self._last_sent` is written only on the firing path. -/
def communityHandle (minGapCfg : Option ℤ) (now : ℚ) (viewerCount : Option ℤ)
    (choice : ℕ) (streamer : String) (st : CommunityState) :
    Option String × CommunityState :=
  let minGap : ℤ := minGapCfg.getD 120
  if now - st.lastSent < (minGap : ℚ) then (none, st)
  else
    match viewerCount with
    | some v =>
      if v ≤ 0 then (none, st)
      else (some ((communityComments streamer).getD (choice % 7) ""), {lastSent := now})
    | none => (some ((communityComments streamer).getD (choice % 7) ""), {lastSent := now})

/- ==================== Polling source and quota ==================== -/

/-- One record handed back by the polling fetch (only the fields the
interval logic threads through matter here). -/
structure PollMsg where
  id : String
  author : String
  message : String
deriving DecidableEq

/-- The externally determined outcome of one
`youtube.liveChatMessages().list(...).execute()` call: a normal response
(messages plus optional `pollingIntervalMillis` hint), an `HttpError` with
its status and `str(e)` body, or some other exception escaping the fetch. -/
inductive FetchOutcome where
  | ok (msgs : List PollMsg) (pollingIntervalMillis : Option ℚ)
  | httpError (status : ℕ) (errText : String)
  | raise

/-- Model of `YouTubeLiveChatAPI.fetch_chat_messages` (youtube_api.py lines 247-302),
restricted to the interval computation: a normal response yields
`max(pollingIntervalMillis/1000, 10.0)`; an `HttpError` with status 403 whose
text contains `quotaExceeded` yields `([], 3600.0)`; any other `HttpError`
yields `([], 10.0)`; other exceptions propagate (`none`).  The per-item
translation and the fetch-level seen-id set do not affect the interval and
are abstracted into the message list carried by the outcome. -/
def fetchChatMessages : FetchOutcome → Option (List PollMsg × ℚ)
  | FetchOutcome.ok msgs hint => some (msgs, max ((hint.getD 10000) / 1000) 10)
  | FetchOutcome.httpError status errText =>
    if status == 403 && decide (("quotaExceeded" : String).data <:+: errText.data) then
      some ([], 3600)
    else some ([], 10)
  | FetchOutcome.raise => none

/-- State of `YouTubeAPIChatSource` (chat_bridge.py lines 252-296):
`last_poll_time` (initially `0`) and `polling_interval` (initially `10.0`). -/
structure PollSourceState where
  lastPollTime : ℚ
  pollingInterval : ℚ
deriving DecidableEq

/-- Model of `YouTubeAPIChatSource.sync_items` (chat_bridge.py lines 264-294): return
nothing while the interval has not elapsed; otherwise stamp the poll time,
fetch, and on success set `polling_interval = max(interval, 5.0)`; an
exception escaping the fetch is caught and yields no messages with the
interval unchanged. -/
def syncItems (now : ℚ) (outcome : FetchOutcome) (st : PollSourceState) :
    List PollMsg × PollSourceState :=
  if now - st.lastPollTime < st.pollingInterval then ([], st)
  else
    let st1 : PollSourceState := { st with lastPollTime := now }
    match fetchChatMessages outcome with
    | none => ([], st1)
    | some (msgs, interval) =>
      (msgs, { st1 with pollingInterval := max interval 5 })

/- ===================== Chat bridge: dispatch ====================== -/

/-- A message dictionary as `process_message` receives it (chat_bridge.py
lines 419-429 build it with `type` always `"text"`; a membership event would
carry `type = "membership"`). -/
structure BridgeMsg where
  id : String
  author : String
  authorChannelId : String
  message : String
  isModerator : Bool
  isOwner : Bool
  type : String

/-- One record appended by `analytics.track_message`. -/
structure AnalyticsRecord where
  messageId : String
  author : String
  authorChannelId : String
  text : String
  isCommand : Bool
  commandName : Option String
deriving DecidableEq

/-- One record appended by `analytics.track_command_execution` (the latency
argument is wall-clock noise and is not modelled). -/
structure CommandExecRecord where
  commandName : String
  success : Bool
deriving DecidableEq

/-- The growth-features store as `process_message` touches it:
`self.new_viewers` (a set) and `self.active_viewers` (a counter map). -/
structure GrowthState where
  newViewers : List String
  activeViewers : List (String × ℕ)
deriving DecidableEq

/-- Model of `GrowthFeatures.is_new_viewer` (growth_features.py lines 116-123):
report whether the author was unseen this stream and record them. -/
def growthIsNewViewer (g : GrowthState) (username : String) : Bool × GrowthState :=
  if username ∈ g.newViewers then (false, g)
  else (true, { g with newViewers := username :: g.newViewers })

/-- Model of the `defaultdict(int)` increment used by `GrowthFeatures.track_message`. -/
def bumpCount : List (String × ℕ) → String → List (String × ℕ)
  | [], u => [(u, 1)]
  | (v, n) :: rest, u =>
    if v == u then (v, n + 1) :: rest else (v, n) :: bumpCount rest u

/-- Externally observable side effects of one `process_message` call: the
message texts passed to `command_parser.execute`, the `(author, text)` pairs
passed to `skills.dispatch`, the `(author, text)` pairs passed to
`generate_response` (the conversational fallback), and the texts passed to
`youtube.post_message`. -/
structure Effects where
  commandExecs : List String
  skillDispatches : List (String × String)
  agentCalls : List (String × String)
  posts : List String
deriving DecidableEq

/-- The no-effect value. -/
def Effects.nil : Effects := ⟨[], [], [], []⟩

/-- Bridge configuration fixed at construction (chat_bridge.py `__init__`). -/
structure BridgeConfig where
  ignoreModerators : Bool
  ignoreOwner : Bool
  botName : String
  botUsername : String
  commands : List PyCommand

/-- Oracles for the collaborators `process_message` awaits: the skill
registry's dispatch result, the agent's generated reply, the
`ENABLE_AGENT` environment value, `youtube.post_message` (returning the new
message id or `None`), the `random.choice` index for membership thanks, and
the growth store's returning-viewer lookup and welcome texts. -/
structure BridgeEnv where
  skillsResult : String → String → Option String
  agentResult : String → String → Option String
  enableAgentVar : String
  postResult : String → Option String
  thankYouChoice : ℕ
  isReturningViewer : String → Bool
  newViewerWelcome : String → String
  returningViewerWelcome : String → String

/-- Mutable bridge state threaded through `process_message`. -/
structure BridgeState where
  processedMessages : List String
  savedLog : List String
  recentBotMessages : List String
  messagesSinceLastAnnouncement : ℕ
  analyticsLog : List AnalyticsRecord
  commandLog : List CommandExecRecord
  growth : GrowthState
deriving DecidableEq

/-- Model of `_append_bot_signature` (chat_bridge.py lines 161-173): empty input is
returned unchanged; otherwise append `" - " + bot_username`, truncating and
right-stripping the body first when the total would exceed 200 characters. -/
def appendBotSignature (botUsername message : String) : String :=
  if message == "" then message
  else
    let signature : String := " - " ++ botUsername
    if 200 < message.length + signature.length then
      ⟨rstripL (pySliceTo message.data (200 - (signature.length : ℤ)))⟩ ++ signature
    else message ++ signature

/-- Model of `should_respond_to_message` (chat_bridge.py lines 678-702): lowercase
and strip the message; answer whether `"@" + bot_name.lower()` occurs in it.
The greeting/question/help/specs heuristics further down the source sit
after an unconditional `return True` and are therefore not part of the
function's behaviour. -/
def shouldRespondToMessage (botName message : String) : Bool :=
  let msgLower := stripL (lowerL message.data)
  decide (('@' :: lowerL botName.data) <:+: msgLower)

/-- The `ENABLE_AGENT` gate (chat_bridge.py lines 631-632):
`os.getenv(...).strip().lower() in ("1", "true", "yes", "y")`. -/
def agentEnabled (v : String) : Bool :=
  let e : String := ⟨lowerL (stripL v.data)⟩
  e == "1" || e == "true" || e == "yes" || e == "y"

/-- The `command_name` extraction (chat_bridge.py lines 568-573): only for
texts starting with `!`; the first whitespace token minus the `!` when the
text contains a space, else the whole text minus the `!`. -/
def extractCommandName (text : String) : Option String :=
  if List.isPrefixOf ['!'] text.data && text.data.contains ' ' then
    some ⟨((splitWs text.data []).headD []).drop 1⟩
  else if List.isPrefixOf ['!'] text.data then
    some ⟨text.data.drop 1⟩
  else none

/-- The thank-you pool for membership events (chat_bridge.py lines 496-501). -/
def thankYouMessages (author botName : String) : List String :=
  [ "🎉 Welcome to the channel " ++ author ++ "! Thanks for subscribing! - " ++ botName,
    "Thanks for the support " ++ author ++ "! Welcome to the community! 💪 - " ++ botName,
    "Amazing! " ++ author ++ " just joined as a member! Thanks so much! 🙌 - " ++ botName,
    "Huge thanks " ++ author ++ " for the subscription! 🔥 - " ++ botName ]

/-- The post-and-remember idiom repeated in `process_message` (e.g.
chat_bridge.py lines 644-651): call `youtube.post_message(text)`; if it
returns an id, add the id to the processed set, append it to the durable
log, and remember the normalized text in the echo deque. -/
def postAndRemember (env : BridgeEnv) (st : BridgeState) (eff : Effects)
    (text : String) : BridgeState × Effects :=
  let eff2 : Effects := { eff with posts := eff.posts ++ [text] }
  match env.postResult text with
  | some mid =>
    ({ st with
        processedMessages := mid :: st.processedMessages,
        savedLog := st.savedLog ++ [mid],
        recentBotMessages := dequeAppend 50 st.recentBotMessages (normalizeText text) },
     eff2)
  | none => (st, eff2)

/-- The three-tier handler resolution of `process_message` (chat_bridge.py
lines 594-634): the command tier (guarded by `text.startswith("!")` and
`command_parser.can_handle`), the skill tier and the conversational tier
(both guarded by `not response and not text.startswith("!")`).  Returns the
response, the side effects, and the `track_command_execution` records. -/
def routeText (cfg : BridgeConfig) (env : BridgeEnv) (author text : String) :
    Option String × Effects × List CommandExecRecord :=
  let commandName := extractCommandName text
  let t1 : Option String × Effects × List CommandExecRecord :=
    if List.isPrefixOf ['!'] text.data then
      if parserCanHandle cfg.commands text then
        let r := parserExecute cfg.commands text
        let records : List CommandExecRecord :=
          match commandName with
          | some cn => if cn != "" then [⟨cn, truthy r⟩] else []
          | none => []
        (r, { Effects.nil with commandExecs := [text] }, records)
      else (none, Effects.nil, [])
    else (none, Effects.nil, [])
  let t2 : Option String × Effects :=
    if !truthy t1.1 && !List.isPrefixOf ['!'] text.data then
      (env.skillsResult author text,
       { t1.2.1 with skillDispatches := t1.2.1.skillDispatches ++ [(author, text)] })
    else (t1.1, t1.2.1)
  let t3 : Option String × Effects :=
    if !truthy t2.1 && !List.isPrefixOf ['!'] text.data then
      if shouldRespondToMessage cfg.botName text then
        if agentEnabled env.enableAgentVar then
          (env.agentResult author text,
           { t2.2 with agentCalls := t2.2.agentCalls ++ [(author, text)] })
        else (t2.1, t2.2)
      else (t2.1, t2.2)
    else (t2.1, t2.2)
  (t3.1, t3.2, t1.2.2)

/-- The text-message tail of `process_message` (chat_bridge.py lines
552-677), entered after the dedup, membership, echo and moderator/owner
gates: growth tracking, the announcement counter, the analytics record, the
three handler tiers, the signed response post, and the new-viewer welcome
post.  (The welcome preview computed at lines 554-559 is only logged; the
posted welcome is recomputed at lines 660-668 and is what the env supplies.) -/
def processTextTail (cfg : BridgeConfig) (env : BridgeEnv) (st0 : BridgeState)
    (msg : BridgeMsg) : BridgeState × Effects :=
  let author := msg.author
  let text := msg.message
  let nv := growthIsNewViewer st0.growth author
  let st1 : BridgeState :=
    { st0 with
        growth := { nv.2 with activeViewers := bumpCount nv.2.activeViewers author },
        messagesSinceLastAnnouncement := st0.messagesSinceLastAnnouncement + 1 }
  let st2 : BridgeState :=
    { st1 with
        analyticsLog := st1.analyticsLog ++
          [⟨msg.id, author, msg.authorChannelId, text,
            List.isPrefixOf ['!'] text.data, extractCommandName text⟩] }
  let rt := routeText cfg env author text
  let st3 : BridgeState := { st2 with commandLog := st2.commandLog ++ rt.2.2 }
  let p4 : BridgeState × Effects :=
    if truthy rt.1 then
      postAndRemember env st3 rt.2.1
        (appendBotSignature cfg.botUsername (rt.1.getD ""))
    else (st3, rt.2.1)
  if nv.1 then
    let welcome :=
      if env.isReturningViewer author then env.returningViewerWelcome author
      else env.newViewerWelcome author
    postAndRemember env p4.1 p4.2 welcome
  else p4

/-- Model of `YouTubeChatBridge.process_message` (chat_bridge.py lines 474-677): the
dedup gate, the processed-set/durable-log update, the membership branch
(thank-you post plus analytics record), and for text messages the echo
filter, the moderator/owner filters, and the text tail. -/
def processMessage (cfg : BridgeConfig) (env : BridgeEnv) (st : BridgeState)
    (msg : BridgeMsg) : BridgeState × Effects :=
  if msg.id ∈ st.processedMessages then (st, Effects.nil)
  else
    let st1 : BridgeState :=
      { st with
          processedMessages := msg.id :: st.processedMessages,
          savedLog := st.savedLog ++ [msg.id] }
    if msg.type == "membership" then
      let response :=
        (thankYouMessages msg.author cfg.botName).getD (env.thankYouChoice % 4) ""
      let pr := postAndRemember env st1 Effects.nil response
      ({ pr.1 with
          analyticsLog := pr.1.analyticsLog ++
            [⟨msg.id, msg.author, msg.authorChannelId,
              "[MEMBERSHIP] Subscribed", false, none⟩] },
       pr.2)
    else
      if normalizeText msg.message ∈ st1.recentBotMessages then (st1, Effects.nil)
      else if cfg.ignoreModerators && msg.isModerator then (st1, Effects.nil)
      else if cfg.ignoreOwner && msg.isOwner then (st1, Effects.nil)
      else processTextTail cfg env st1 msg

/- ================= Concrete instances used in tests ================ -/

/-- The built-in ping command (builtins.py lines 281-286): name `ping`,
aliases `p` and `online`, a fixed successful reply. -/
def pingCommand : PyCommand :=
  ⟨"ping", ["p", "online"], HandlerOutcome.returns (some "Pong! Bot is online!")⟩

/-- A command named `ping` with no aliases, isolating name-based matching. -/
def pingOnlyCommand : PyCommand :=
  ⟨"ping", [], HandlerOutcome.returns (some "Pong! Bot is online!")⟩

/-- A command whose handler raises `ZeroDivisionError("division by zero")`. -/
def boomCommand : PyCommand :=
  ⟨"boom", [], HandlerOutcome.raises "division by zero"⟩

/-- A skill whose predicate matches and whose handler raises. -/
def crashingSkill : PySkill :=
  ⟨fun _ _ => Except.ok true, fun _ _ => Except.error ()⟩

/-- A skill whose predicate matches and whose handler replies. -/
def answeringSkill : PySkill :=
  ⟨fun _ _ => Except.ok true, fun _ _ => Except.ok (some "hello")⟩

/-- A concrete bridge configuration (defaults of `YouTubeChatBridge`). -/
def sampleCfg : BridgeConfig :=
  ⟨false, false, "StreamNova", "StreamNova", [pingCommand]⟩

/-- A concrete collaborator environment. -/
def sampleEnv : BridgeEnv :=
  ⟨fun _ _ => none, fun _ _ => none, "true", fun _ => some "postid7", 0,
   fun _ => false, fun a => "Welcome " ++ a, fun a => "Welcome back " ++ a⟩

/-- A concrete bridge state: one processed id, one remembered bot message. -/
def sampleState : BridgeState :=
  ⟨["seen1"], ["seen1"], [normalizeText "Welcome! - StreamNova"], 0, [], [], ⟨[], []⟩⟩

/-- A concrete incoming command message. -/
def sampleCmdMsg : BridgeMsg :=
  ⟨"m1", "Alice", "ch1", "!ping", false, false, "text"⟩

/-- A concrete incoming message whose text is an echo of the remembered
bot message up to whitespace. -/
def sampleEchoMsg : BridgeMsg :=
  ⟨"m2", "Bob", "ch2", "  Welcome!  - StreamNova", false, false, "text"⟩

/-- Viewer-count gate of `CommunityEngagementSkill.handle`: the handler can
reach its firing path iff the context yields no count or a positive one. -/
def viewerGateOpen : Option ℤ → Prop
  | none => True
  | some v => 0 < v

/- ========================= Helper lemmas ========================== -/

theorem strData_append (a b : String) : (a ++ b).data = a.data ++ b.data := rfl

theorem strLength_data (s : String) : s.length = s.data.length := rfl

theorem str_append_ne_empty (a b : String) (h : a ≠ "") : a ++ b ≠ "" := by
  intro hc
  apply h
  have hd : a.data ++ b.data = ([] : List Char) := by
    have := congrArg String.data hc
    simpa [strData_append] using this
  have ha : a.data = [] := (List.append_eq_nil.mp hd).1
  cases a
  simp_all

theorem rstripL_length_le (l : List Char) : (rstripL l).length ≤ l.length := by
  have h1 : (l.reverse.dropWhile pyIsSpace) <:+ l.reverse := List.dropWhile_suffix _
  have h2 := List.Sublist.length_le ( List.IsSuffix.sublist h1)
  simpa [rstripL] using h2

theorem dropWhile_append_of_eq_nil {p : Char → Bool} {l1 l2 : List Char}
    (h : l1.dropWhile p = []) :
    (l1 ++ l2).dropWhile p = l2.dropWhile p := by
  induction l1 with
  | nil => simp
  | cons a t ih =>
    by_cases hpa : p a
    · rw [List.cons_append, List.dropWhile_cons, if_pos hpa]
      rw [List.dropWhile_cons, if_pos hpa] at h
      exact ih h
    · rw [List.dropWhile_cons, if_neg hpa] at h
      simp at h

theorem dropWhile_append_of_ne_nil {p : Char → Bool} {l1 l2 : List Char}
    (h : l1.dropWhile p ≠ []) :
    (l1 ++ l2).dropWhile p = l1.dropWhile p ++ l2 := by
  induction l1 with
  | nil => simp at h
  | cons a t ih =>
    by_cases hpa : p a
    · rw [List.cons_append, List.dropWhile_cons, if_pos hpa]
      rw [List.dropWhile_cons, if_pos hpa] at h ⊢
      exact ih h
    · rw [List.cons_append, List.dropWhile_cons, if_neg hpa,
        List.dropWhile_cons, if_neg hpa, List.cons_append]

theorem rstripL_decomp (a p b : List Char) (c : Char) (pr : List Char)
    (hrev : p.reverse = c :: pr) (hc : pyIsSpace c = false) :
    rstripL (a ++ p ++ b) = a ++ p ++ rstripL b := by
  have hsplit : (a ++ p ++ b).reverse = b.reverse ++ (p.reverse ++ a.reverse) := by
    simp
  by_cases hb : b.reverse.dropWhile pyIsSpace = []
  · unfold rstripL
    rw [hsplit, dropWhile_append_of_eq_nil hb, hb]
    rw [hrev, List.cons_append, List.dropWhile_cons, if_neg (by simp [hc]),
      ← List.cons_append, ← hrev]
    simp
  · unfold rstripL
    rw [hsplit, dropWhile_append_of_ne_nil hb]
    simp [List.append_assoc]

theorem lstripL_decomp (a pb : List Char) (c : Char) (pr : List Char)
    (hp : pb = c :: pr) (hc : pyIsSpace c = false) :
    ∃ a2, lstripL (a ++ pb) = a2 ++ pb := by
  unfold lstripL
  by_cases ha : a.dropWhile pyIsSpace = []
  · refine ⟨[], ?_⟩
    rw [dropWhile_append_of_eq_nil ha, hp, List.dropWhile_cons, if_neg (by simp [hc])]
    simp
  · exact ⟨a.dropWhile pyIsSpace, dropWhile_append_of_ne_nil ha⟩

theorem stripL_isInfixL (t : List Char) : stripL t <:+: t := by
  have h1 : lstripL (rstripL t) <:+ rstripL t := List.dropWhile_suffix _
  have h2 : rstripL t <+: t := by
    have hs : t.reverse.dropWhile pyIsSpace <:+ t.reverse := List.dropWhile_suffix _
    have h3 : (t.reverse.dropWhile pyIsSpace).reverse <+: t.reverse.reverse :=
      ( List.reverse_prefix).mpr hs
    simpa [rstripL, - List.reverse_prefix] using h3
  exact List.IsInfix.trans ( List.IsSuffix.isInfix h1) ( List.IsPrefix.isInfix h2)

theorem infix_stripL_iff (p t : List Char) (c0 : Char) (r0 : List Char)
    (hp : p = c0 :: r0) (h0 : pyIsSpace c0 = false)
    (hl : ∀ c pr, p.reverse = c :: pr → pyIsSpace c = false) :
    p <:+: stripL t ↔ p <:+: t := by
  constructor
  · intro h
    exact List.IsInfix.trans h (stripL_isInfixL t)
  · rintro ⟨s, u, hst⟩
    obtain ⟨cl, pl, hrev⟩ : ∃ cl pl, p.reverse = cl :: pl := by
      cases hrevE : p.reverse with
      | nil =>
        exfalso
        have : p = [] := by simpa using congrArg List.reverse hrevE
        simp [hp] at this
      | cons x xs => exact ⟨x, xs, rfl⟩
    have hcl := hl cl pl hrev
    have hr : rstripL t = s ++ p ++ rstripL u := by
      rw [← hst]
      exact rstripL_decomp s p u cl pl hrev hcl
    have hs2 : stripL t = lstripL (s ++ (p ++ rstripL u)) := by
      unfold stripL
      rw [hr, List.append_assoc]
    obtain ⟨a2, ha2⟩ := lstripL_decomp s (p ++ rstripL u) c0 (r0 ++ rstripL u)
      (by rw [hp]; simp) h0
    rw [hs2, ha2]
    exact ⟨a2, rstripL u, by simp⟩

theorem postAndRemember_skillDispatches (env : BridgeEnv) (st : BridgeState)
    (eff : Effects) (text : String) :
    ((postAndRemember env st eff text).2).skillDispatches = eff.skillDispatches := by
  cases h : env.postResult text <;> simp [postAndRemember, h]

theorem postAndRemember_agentCalls (env : BridgeEnv) (st : BridgeState)
    (eff : Effects) (text : String) :
    ((postAndRemember env st eff text).2).agentCalls = eff.agentCalls := by
  cases h : env.postResult text <;> simp [postAndRemember, h]

theorem routeText_bang (cfg : BridgeConfig) (env : BridgeEnv) (author text : String)
    (h : List.isPrefixOf ['!'] text.data = true) :
    (routeText cfg env author text).2.1.skillDispatches = [] ∧
    (routeText cfg env author text).2.1.agentCalls = [] := by
  by_cases hc : parserCanHandle cfg.commands text <;>
    simp [routeText, h, hc, Effects.nil]

theorem processTextTail_eff (cfg : BridgeConfig) (env : BridgeEnv)
    (st : BridgeState) (msg : BridgeMsg) :
    ((processTextTail cfg env st msg).2).skillDispatches =
      (routeText cfg env msg.author msg.message).2.1.skillDispatches ∧
    ((processTextTail cfg env st msg).2).agentCalls =
      (routeText cfg env msg.author msg.message).2.1.agentCalls := by
  simp only [processTextTail]
  split <;> split <;>
    simp [postAndRemember_skillDispatches, postAndRemember_agentCalls]

theorem communityComments_getD_ne_empty (streamer : String) (c : ℕ) :
    (communityComments streamer).getD (c % 7) "" ≠ "" := by
  have h7 : c % 7 < 7 := Nat.mod_lt _ (by norm_num)
  have hne : ∀ s ∈ communityComments streamer, s ≠ "" := by
    intro s hs
    simp only [communityComments, List.mem_cons, List.not_mem_nil, or_false] at hs
    rcases hs with rfl | rfl | rfl | rfl | rfl | rfl | rfl
    · exact str_append_ne_empty _ _ (str_append_ne_empty _ _ (by decide))
    all_goals decide
  apply hne
  have hlen : (communityComments streamer).length = 7 := by
    simp [communityComments]
  rw [List.getD_eq_getElem?_getD]
  rw [List.getElem?_eq_getElem (by omega)]
  simp [List.getElem_mem]

/- ===================== Claims C3, C5 and C6 ======================= -/

/-- Claim C3, counterexample.  The claim says a raising handler makes
`SkillRegistry.dispatch` return `None` without evaluating any subsequent
skill.  Here the first skill's predicate matches and its handler raises, yet
dispatch returns the second skill's answer `"hello"` (in particular not
`None`), because the `except Exception: continue` arm moves on to the next
skill. -/
theorem skill_exception_cex :
    skillsDispatch [crashingSkill, answeringSkill] "alice" "hi" = some "hello" := rfl

/-- Claim C3, amended.  When a skill's predicate accepts and its handler
raises, `SkillRegistry.dispatch` catches the exception and continues with
the remaining skills, returning whatever they produce (so `None` only when
no later skill produces a result). -/
theorem skill_exception_continues (s : PySkill) (rest : List PySkill)
    (author message : String)
    (hpred : s.shouldHandle author message = Except.ok true)
    (hraise : ∃ e, s.handle author message = Except.error e) :
    skillsDispatch (s :: rest) author message = skillsDispatch rest author message := by
  obtain ⟨e, he⟩ := hraise
  simp [skillsDispatch, hpred, he]

/-- Claim C3, witness for the amended theorem at a concrete skill list. -/
theorem skill_exception_continues_witness :
    crashingSkill.shouldHandle "alice" "hi" = Except.ok true ∧
    (∃ e, crashingSkill.handle "alice" "hi" = Except.error e) ∧
    skillsDispatch [crashingSkill, answeringSkill] "alice" "hi" =
      skillsDispatch [answeringSkill] "alice" "hi" :=
  ⟨rfl, ⟨(), rfl⟩, skill_exception_continues _ _ _ _ rfl ⟨(), rfl⟩⟩

/-- Claim C5, counterexample.  The claim says the first whitespace token
minus `!` must equal the name or an alias, so `"!pingx"` should match no
command named `ping`; but `can_handle` is a plain `startswith` test and
`"!pingx"` does match the `ping` command — even with its aliases removed. -/
theorem can_handle_cex :
    pingCommand.name = "ping" ∧ canHandle pingCommand "!pingx" = true ∧
    pingOnlyCommand.name = "ping" ∧ pingOnlyCommand.aliases = [] ∧
    canHandle pingOnlyCommand "!pingx" = true :=
  ⟨rfl, by decide, rfl, rfl, by decide⟩

/-- Claim C5, amended.  `BaseCommand.can_handle` accepts a message iff the
lowercased, stripped message has `"!" + k` as a *prefix of the whole text*
for `k` the command name or one of its aliases; the first token may extend
the name with further characters (as `!pingx` does for `ping`). -/
theorem can_handle_iff (cmd : PyCommand) (message : String) :
    canHandle cmd message = true ↔
      ∃ k, k ∈ cmd.name :: cmd.aliases ∧
        ("!" ++ k).data <+: stripL (lowerL message.data) := by
  simp only [canHandle, Bool.or_eq_true, List.any_eq_true,
    List.isPrefixOf_iff_prefix]
  constructor
  · rintro (h | ⟨a, ha, h⟩)
    · exact ⟨cmd.name, List.mem_cons_self _ _, h⟩
    · exact ⟨a, List.mem_cons_of_mem _ ha, h⟩
  · rintro ⟨k, hk, h⟩
    rcases List.mem_cons.mp hk with rfl | hk
    · exact Or.inl h
    · exact Or.inr ⟨k, hk, h⟩

/-- Claim C6, counterexample.  The claim says the failure string contains no
part of the raised exception's text; but `CommandParser.execute` returns
`"Error executing command: " + str(e)[:50]`, which embeds the raw exception
text (here `division by zero`) verbatim. -/
theorem command_error_cex :
    parserExecute [boomCommand] "!boom" =
      some "Error executing command: division by zero" ∧
    ("division by zero" : String).data <:+:
      ("Error executing command: division by zero" : String).data :=
  ⟨rfl, by decide⟩

/-- Claim C6, amended.  A raising handler never propagates its exception:
`CommandParser.execute` catches it and returns the failure string
`"Error executing command: "` followed by the first 50 characters of the
exception's text (so the reply does embed raw error text, truncated). -/
theorem command_error_string (cmds : List PyCommand) (message e : String)
    (cmd : PyCommand)
    (hbang : List.isPrefixOf ['!'] message.data = true)
    (hfind : cmds.find? (fun c => canHandle c message) = some cmd)
    (hraise : cmd.handler = HandlerOutcome.raises e) :
    parserExecute cmds message =
      some ("Error executing command: " ++ ⟨e.data.take 50⟩) := by
  simp [parserExecute, hbang, hfind, hraise]

/-- Claim C6, witness for the amended theorem at a concrete command. -/
theorem command_error_string_witness :
    List.isPrefixOf ['!'] ("!boom" : String).data = true ∧
    List.find? (fun c => canHandle c "!boom") [boomCommand] = some boomCommand ∧
    boomCommand.handler = HandlerOutcome.raises "division by zero" ∧
    parserExecute [boomCommand] "!boom" =
      some ("Error executing command: " ++
        ⟨("division by zero" : String).data.take 50⟩) :=
  ⟨by decide, by decide, rfl,
    command_error_string [boomCommand] "!boom" "division by zero" boomCommand
      (by decide) (by decide) rfl⟩

/- ========================= Claims C4 and C8 ======================= -/

/-- Claim C4, counterexample.  The quota-exhausted condition is not
terminal: after a 403 `quotaExceeded` fetch on cycle N stretches the
interval to 3600 s, the very next fetch cycle that succeeds (here with the
API's 10000 ms hint) resets the polling interval back down to 10 s; there is
no `quota_exhausted` flag anywhere in the code. -/
theorem quota_not_terminal_cex :
    (syncItems 100 (FetchOutcome.httpError 403 "<HttpError 403 quotaExceeded>")
        ⟨0, 10⟩).2 = ⟨100, 3600⟩ ∧
    (syncItems 3700 (FetchOutcome.ok [] (some 10000)) ⟨100, 3600⟩).2 = ⟨3700, 10⟩ ∧
    (10 : ℚ) < 3600 := by
  have hfetch1 : fetchChatMessages
      (FetchOutcome.httpError 403 "<HttpError 403 quotaExceeded>") = some ([], 3600) := by
    rw [fetchChatMessages]
    rw [if_pos (by decide)]
  have hfetch2 : fetchChatMessages (FetchOutcome.ok [] (some 10000)) = some ([], 10) := by
    rw [fetchChatMessages]
    norm_num
  refine ⟨?_, ?_, by norm_num⟩
  · simp only [syncItems, hfetch1]
    rw [if_neg (by norm_num)]
    have : max (3600 : ℚ) 5 = 3600 := by norm_num
    simp [this]
  · simp only [syncItems, hfetch2]
    rw [if_neg (by norm_num)]
    have : max (10 : ℚ) 5 = 10 := by norm_num
    simp [this]

/-- Claim C4, amended.  After one quota-exhaustion signal (HTTP 403 whose
text contains `quotaExceeded`) on a due fetch cycle, the polling interval
used for the next cycle is 3600 seconds (at least one hour); the condition
is however not terminal — per `quota_not_terminal_cex` a later successful
fetch lowers the interval again. -/
theorem quota_extends_interval (st : PollSourceState) (now : ℚ) (status : ℕ)
    (err : String)
    (hdue : st.pollingInterval ≤ now - st.lastPollTime)
    (hs : status = 403)
    (hq : ("quotaExceeded" : String).data <:+: err.data) :
    (syncItems now (FetchOutcome.httpError status err) st).2.pollingInterval = 3600 := by
  have hnl : ¬ (now - st.lastPollTime < st.pollingInterval) := not_lt.mpr hdue
  subst hs
  simp only [syncItems, fetchChatMessages, if_neg hnl]
  rw [if_pos (by simp [hq])]
  simp
  norm_num

/-- Claim C4, witness for the amended theorem at a concrete poll state. -/
theorem quota_extends_interval_witness :
    ((⟨0, 10⟩ : PollSourceState).pollingInterval ≤ 100 - (⟨0, 10⟩ : PollSourceState).lastPollTime) ∧
    ("quotaExceeded" : String).data <:+:
      ("<HttpError 403 quotaExceeded>" : String).data ∧
    (syncItems 100 (FetchOutcome.httpError 403 "<HttpError 403 quotaExceeded>")
        ⟨0, 10⟩).2.pollingInterval = 3600 :=
  ⟨by norm_num, by decide,
    quota_extends_interval ⟨0, 10⟩ 100 403 "<HttpError 403 quotaExceeded>"
      (by norm_num) rfl (by decide)⟩

theorem communityHandle_fires (G : ℤ) (now : ℚ) (vc : Option ℤ) (c : ℕ)
    (streamer : String) (st : CommunityState)
    (hgap : ¬ (now - st.lastSent < (G : ℚ))) (hvc : viewerGateOpen vc) :
    communityHandle (some G) now vc c streamer st =
      (some ((communityComments streamer).getD (c % 7) ""), ⟨now⟩) := by
  cases vc with
  | none => simp [communityHandle, hgap]
  | some v => simp [communityHandle, hgap, not_le.mpr hvc]

theorem communityHandle_gated (G : ℤ) (now : ℚ) (vc : Option ℤ) (c : ℕ)
    (streamer : String) (st : CommunityState)
    (hgap : now - st.lastSent < (G : ℚ)) :
    communityHandle (some G) now vc c streamer st = (none, st) := by
  simp [communityHandle, hgap]

/-- Claim C8.  For the community-engagement skill configured with
`min_gap_seconds = G` and fresh state (`_last_sent = 0`), two qualifying
events handled at wall-clock times `t` and `t + G/2` (with the viewer-count
gate open) yield exactly one non-empty reply — the first fires, the second
returns `None`; events at `t` and `t + 2G` both yield non-empty replies. -/
theorem community_cooldown (G : ℤ) (t : ℚ) (c1 c2 : ℕ) (vc1 vc2 : Option ℤ)
    (streamer : String)
    (hG : 0 < G) (ht : (G : ℚ) ≤ t)
    (h1 : viewerGateOpen vc1) (h2 : viewerGateOpen vc2) :
    (∃ m, (communityHandle (some G) t vc1 c1 streamer ⟨0⟩).1 = some m ∧ m ≠ "") ∧
    (communityHandle (some G) (t + (G : ℚ) / 2) vc2 c2 streamer
        (communityHandle (some G) t vc1 c1 streamer ⟨0⟩).2).1 = none ∧
    (∃ m, (communityHandle (some G) (t + 2 * (G : ℚ)) vc2 c2 streamer
        (communityHandle (some G) t vc1 c1 streamer ⟨0⟩).2).1 = some m ∧ m ≠ "") := by
  have hGQ : (0 : ℚ) < (G : ℚ) := by exact_mod_cast hG
  have hcall1 : communityHandle (some G) t vc1 c1 streamer ⟨0⟩ =
      (some ((communityComments streamer).getD (c1 % 7) ""), ⟨t⟩) :=
    communityHandle_fires G t vc1 c1 streamer ⟨0⟩
      (show ¬ (t - (0 : ℚ) < (G : ℚ)) by
        intro hlt
        linarith) h1
  refine ⟨⟨_, by rw [hcall1], communityComments_getD_ne_empty streamer c1⟩, ?_, ?_⟩
  · rw [hcall1]
    have h2nd := communityHandle_gated G (t + (G : ℚ) / 2) vc2 c2 streamer ⟨t⟩
      (show t + (G : ℚ) / 2 - t < (G : ℚ) by
        have : t + (G : ℚ) / 2 - t = (G : ℚ) / 2 := by ring
        rw [this]
        linarith)
    rw [h2nd]
  · rw [hcall1]
    have h3rd := communityHandle_fires G (t + 2 * (G : ℚ)) vc2 c2 streamer ⟨t⟩
      (show ¬ (t + 2 * (G : ℚ) - t < (G : ℚ)) by
        intro hlt
        have : t + 2 * (G : ℚ) - t = 2 * (G : ℚ) := by ring
        rw [this] at hlt
        linarith) h2
    rw [h3rd]
    exact ⟨_, rfl, communityComments_getD_ne_empty streamer c2⟩

/-- Claim C8, witness: `G = 180`, first event at `t = 1000`, viewer gate
open with no count available. -/
theorem community_cooldown_witness :
    (0 : ℤ) < 180 ∧ ((180 : ℤ) : ℚ) ≤ 1000 ∧
    viewerGateOpen none ∧
    ((∃ m, (communityHandle (some 180) 1000 none 3 "Loki" ⟨0⟩).1 = some m ∧ m ≠ "") ∧
     (communityHandle (some 180) (1000 + ((180 : ℤ) : ℚ) / 2) none 5 "Loki"
         (communityHandle (some 180) 1000 none 3 "Loki" ⟨0⟩).2).1 = none ∧
     (∃ m, (communityHandle (some 180) (1000 + 2 * ((180 : ℤ) : ℚ)) none 5 "Loki"
         (communityHandle (some 180) 1000 none 3 "Loki" ⟨0⟩).2).1 = some m ∧ m ≠ "")) :=
  ⟨by norm_num, by norm_num, trivial,
    community_cooldown 180 1000 3 5 none none "Loki"
      (by norm_num) (by norm_num) trivial trivial⟩

/- ========================= Claims C9 and C10 ====================== -/

/-- Claim C9.  For any bot username whose signature fits in the 200-char
budget (the deployed `StreamNova` does), `_append_bot_signature` maps any
non-empty message to a string of length at most 200 ending in
`" - " + bot_username` (truncating the body when needed), and maps the
empty string to itself unchanged. -/
theorem append_signature_spec (u m : String)
    (hu : u.length ≤ 197) (hm : m ≠ "") :
    (appendBotSignature u m).length ≤ 200 ∧
    (" - " ++ u).data <:+ (appendBotSignature u m).data ∧
    appendBotSignature u "" = "" := by
  have hmB : (m == "") = false := by
    simpa using hm
  have hud : u.data.length ≤ 197 := hu
  have hsd : (" - " ++ u).data.length ≤ 200 := by
    rw [strData_append, List.length_append]
    have h3 : (" - " : String).data.length = 3 := rfl
    omega
  refine ⟨?_, ?_, rfl⟩
  · simp only [appendBotSignature, hmB, Bool.false_eq_true, if_false]
    split
    · have hslice : (pySliceTo m.data (200 - ((" - " ++ u).length : ℤ))).length ≤
          200 - (" - " ++ u).data.length := by
        have hq : (" - " ++ u).length = (" - " ++ u).data.length := rfl
        simp only [pySliceTo, hq]
        rw [if_pos (by omega)]
        have ht : ((200 : ℤ) - ((" - " ++ u).data.length : ℤ)).toNat =
            200 - (" - " ++ u).data.length := by
          omega
        rw [ht]
        exact List.length_take_le _ _
      have hstrip := le_trans
        (rstripL_length_le (pySliceTo m.data (200 - ((" - " ++ u).length : ℤ)))) hslice
      rw [strLength_data, strData_append, List.length_append]
      have hdata : ∀ l : List Char, ((⟨l⟩ : String)).data = l := fun _ => rfl
      rw [hdata]
      omega
    · rename_i hover
      rw [strLength_data, strData_append, List.length_append]
      have hm1 : m.length = m.data.length := rfl
      have hm2 : (" - " ++ u).length = (" - " ++ u).data.length := rfl
      rw [hm1, hm2] at hover
      omega
  · simp only [appendBotSignature, hmB, Bool.false_eq_true, if_false]
    split
    · rw [strData_append]
      exact List.suffix_append _ _
    · rw [strData_append]
      exact List.suffix_append _ _

/-- Claim C9, witness at the deployed username and a sample message. -/
theorem append_signature_spec_witness :
    ("StreamNova" : String).length ≤ 197 ∧ ("hello" : String) ≠ "" ∧
    ((appendBotSignature "StreamNova" "hello").length ≤ 200 ∧
     (" - " ++ "StreamNova" : String).data <:+
       (appendBotSignature "StreamNova" "hello").data ∧
     appendBotSignature "StreamNova" "" = "") :=
  ⟨by decide, by decide, append_signature_spec "StreamNova" "hello" (by decide) (by decide)⟩

/-- Claim C10.  Provided the configured bot name does not end in whitespace
(true of the deployed `StreamNova`), `should_respond_to_message` returns
`True` iff the lowercased message contains `"@"` followed by the lowercased
bot name; in particular the greeting/direct-question/help/specs heuristics
in the source are dead code after the unconditional `return True`, so no
message lacking the mention ever triggers the conversational fallback. -/
theorem should_respond_iff (botName message : String)
    (hb : Option.all (fun c => !pyIsSpace c) ((lowerL botName.data).getLast?) = true) :
    shouldRespondToMessage botName message = true ↔
      ('@' :: lowerL botName.data) <:+: lowerL message.data := by
  have hdec : shouldRespondToMessage botName message = true ↔
      ('@' :: lowerL botName.data) <:+: stripL (lowerL message.data) := by
    simp [shouldRespondToMessage]
  rw [hdec]
  refine infix_stripL_iff _ _ '@' (lowerL botName.data) rfl (by decide) ?_
  intro c pr hcp
  rcases hL : (lowerL botName.data).reverse with _ | ⟨d, ds⟩
  · rw [List.reverse_cons, hL, List.nil_append] at hcp
    have hc : '@' = c := by
      simpa using congrArg (fun l => l.headD ' ') hcp
    subst hc
    decide
  · rw [List.reverse_cons, hL, List.cons_append] at hcp
    have hc : d = c := by
      simpa using congrArg (fun l => l.headD ' ') hcp
    subst hc
    have hlast : (lowerL botName.data).getLast? = some d := by
      rw [← List.head?_reverse, hL]
      rfl
    rw [hlast] at hb
    simpa [Option.all] using hb

/-- Claim C10, witness at the deployed bot name and a mentioning message. -/
theorem should_respond_iff_witness :
    Option.all (fun c => !pyIsSpace c)
      ((lowerL ("StreamNova" : String).data).getLast?) = true ∧
    (shouldRespondToMessage "StreamNova" "hey @StreamNova what is up" = true ↔
      ('@' :: lowerL ("StreamNova" : String).data) <:+:
        lowerL ("hey @StreamNova what is up" : String).data) :=
  ⟨by decide, should_respond_iff "StreamNova" "hey @StreamNova what is up" (by decide)⟩

/- ====================== Claims C1, C2 and C7 ====================== -/

/-- Claim C1.  For every incoming event whose text begins with `!`, the
dispatch routine never calls `skills.dispatch` and never consults the
conversational fallback (`generate_response`) — for any command-engine
outcome, including a matched command returning `None`; the command tier's
result is final. -/
theorem command_precedence (cfg : BridgeConfig) (env : BridgeEnv)
    (st : BridgeState) (msg : BridgeMsg)
    (h : List.isPrefixOf ['!'] msg.message.data = true) :
    (processMessage cfg env st msg).2.skillDispatches = [] ∧
    (processMessage cfg env st msg).2.agentCalls = [] := by
  simp only [processMessage]
  split
  · exact ⟨rfl, rfl⟩
  · split
    · constructor <;>
        simp [postAndRemember_skillDispatches, postAndRemember_agentCalls, Effects.nil]
    · split
      · exact ⟨rfl, rfl⟩
      · split
        · exact ⟨rfl, rfl⟩
        · split
          · exact ⟨rfl, rfl⟩
          · refine ⟨?_, ?_⟩
            · rw [(processTextTail_eff cfg env _ msg).1]
              exact (routeText_bang cfg env msg.author msg.message h).1
            · rw [(processTextTail_eff cfg env _ msg).2]
              exact (routeText_bang cfg env msg.author msg.message h).2

/-- Claim C1, witness: the command message `!ping` produces no skill
dispatch and no fallback call. -/
theorem command_precedence_witness :
    List.isPrefixOf ['!'] sampleCmdMsg.message.data = true ∧
    ((processMessage sampleCfg sampleEnv sampleState sampleCmdMsg).2.skillDispatches = [] ∧
     (processMessage sampleCfg sampleEnv sampleState sampleCmdMsg).2.agentCalls = []) :=
  ⟨by decide, command_precedence sampleCfg sampleEnv sampleState sampleCmdMsg (by decide)⟩

/-- Claim C2.  Once an event id is in the processed set, a further
`process_message` call with that id — whatever the rest of the payload —
returns immediately: the state (including analytics, growth and echo-filter
state) is unchanged and no command execution, skill dispatch, fallback call
or outbound post happens. -/
theorem dedup_idempotent (cfg : BridgeConfig) (env : BridgeEnv)
    (st : BridgeState) (msg : BridgeMsg)
    (h : msg.id ∈ st.processedMessages) :
    processMessage cfg env st msg = (st, Effects.nil) := by
  simp [processMessage, h]

/-- Claim C2, witness: replaying the already-processed id `seen1` with a
different payload changes nothing and triggers nothing. -/
theorem dedup_idempotent_witness :
    ("seen1" : String) ∈ sampleState.processedMessages ∧
    processMessage sampleCfg sampleEnv sampleState
      ⟨"seen1", "Bob", "ch9", "!ping totally different text", false, false, "text"⟩ =
      (sampleState, Effects.nil) :=
  ⟨by decide,
    dedup_idempotent sampleCfg sampleEnv sampleState
      ⟨"seen1", "Bob", "ch9", "!ping totally different text", false, false, "text"⟩
      (by decide)⟩

/-- Claim C7.  A not-yet-processed text event whose text normalizes (all
whitespace removed, case-folded, asterisks stripped) to a value still in the
50-entry echo buffer is dropped by `process_message` before any command,
skill or fallback handler runs and before any outbound post: only the
processed-id set and the durable log are extended. -/
theorem echo_suppression (cfg : BridgeConfig) (env : BridgeEnv)
    (st : BridgeState) (msg : BridgeMsg)
    (h1 : msg.type = "text")
    (h2 : msg.id ∉ st.processedMessages)
    (h3 : normalizeText msg.message ∈ st.recentBotMessages) :
    processMessage cfg env st msg =
      ({ st with
          processedMessages := msg.id :: st.processedMessages,
          savedLog := st.savedLog ++ [msg.id] }, Effects.nil) := by
  have hmem : (msg.type == "membership") = false := by
    rw [h1]
    rfl
  simp [processMessage, h2, h3, hmem]

/-- Claim C7, witness: after the bot remembered `Welcome! - StreamNova`,
the incoming `"  Welcome!  - StreamNova"` (same text up to whitespace) is
dropped with no handler call and no post. -/
theorem echo_suppression_witness :
    sampleEchoMsg.type = "text" ∧
    sampleEchoMsg.id ∉ sampleState.processedMessages ∧
    normalizeText sampleEchoMsg.message ∈ sampleState.recentBotMessages ∧
    processMessage sampleCfg sampleEnv sampleState sampleEchoMsg =
      ({ sampleState with
          processedMessages := sampleEchoMsg.id :: sampleState.processedMessages,
          savedLog := sampleState.savedLog ++ [sampleEchoMsg.id] }, Effects.nil) :=
  ⟨rfl, by decide, by decide,
    echo_suppression sampleCfg sampleEnv sampleState sampleEchoMsg rfl
      (by decide) (by decide)⟩

end StreamBot
